import Mathlib

/-
  Verification development for the ppt2video conversion pipeline
  (core_logic/ppt_processor.py, core_logic/video_synthesizer.py,
   core_logic/tts_manager_edge.py, core_logic/utils.py, tasks.py).

  Durations are modelled as rationals; external effects (filesystem,
  ffmpeg/ffprobe/TTS invocations) are modelled as explicit oracle
  parameters so that the control flow of each Python function can be
  translated line by line.
-/

set_option maxHeartbeats 1000000

namespace Ppt2Video

/-- Alignment step of `process_presentation_for_task`
(core_logic/ppt_processor.py lines 259-270): if the image count and the
note count differ, truncate both lists to the minimum, failing (`none`,
the `raise ValueError`) when the minimum is zero; when they agree, fail
when the common count is zero, otherwise keep both lists unchanged. -/
def alignSlides (imagePaths notesList : List String) :
    Option (List String × List String) :=
  let numImages := imagePaths.length
  let numNotes := notesList.length
  if numImages ≠ numNotes then
    let minCount := min numImages numNotes
    if minCount = 0 then none
    else some (imagePaths.take minCount, notesList.take minCount)
  else if numImages = 0 then none
  else some (imagePaths, notesList)

/-- One aligned slide record as assembled by step 5 of
`process_presentation_for_task`: 1-based slide number, image path,
note text, optional audio clip path, and audio duration
(0.0 sentinel for "no usable audio"). -/
structure SlideRec where
  slideNumber : Nat
  imagePath : String
  notes : String
  audioPath : Option String
  audioDuration : ℚ
deriving DecidableEq

/-- Clip duration resolution in the segment loop of
`synthesize_video_for_task` (video_synthesizer.py line 632):
`audio_duration if audio_duration is not None and audio_duration > 0.01
else default_slide_duration`.  In the pipeline the duration field is
always a float, so the `is not None` guard never fires and the test is
a strict comparison with 0.01. -/
def clipDuration (audioDuration defaultSlideDuration : ℚ) : ℚ :=
  if audioDuration > 1/100 then audioDuration else defaultSlideDuration

/-- Audio argument passed to `create_video_segment` by the segment loop
(video_synthesizer.py lines 630 and 639): the audio path survives only
if the file exists, and is then additionally gated by the strict
duration test. -/
def segmentAudioArg (fs : String → Bool) (rec : SlideRec) : Option String :=
  let audioPath : Option String :=
    match rec.audioPath with
    | some a => if fs a then some a else none
    | none => none
  if rec.audioDuration > 1/100 then audioPath else none

/-- Oracle environment for `synthesize_video_for_task`: filesystem
existence, the result of each `create_video_segment` call (by list
index, duration, audio argument), and the results of the concatenation,
ASR, subtitle-embedding and file-move steps. -/
structure SynthEnv where
  fs : String → Bool
  createSeg : Nat → ℚ → Option String → Bool
  concatOk : Bool
  subtitlesGenerated : Bool
  srtOnDisk : Bool
  srtSize : Nat
  addSubtitlesOk : Bool
  moveBaseOk : Bool
  baseVideoOnDisk : Bool
  defaultSlideDuration : ℚ

/-- Which video file ends up at the final output path. -/
inductive FinalVideo
  | withSubtitles
  | withoutSubtitles
deriving DecidableEq

/-- Result of `synthesize_video_for_task`: the boolean return value,
which video (if any) was delivered to the final output path, and the
constant parts of the status texts emitted on the taken path. -/
structure SynthOutcome where
  success : Bool
  delivered : Option FinalVideo
  statuses : List String
deriving DecidableEq

/-- Segment-building loop of `synthesize_video_for_task`
(video_synthesizer.py lines 619-652): slides whose image path is falsy
or whose image file is missing are skipped with a warning; otherwise a
segment is built with the resolved clip duration and gated audio;
the first `create_video_segment` failure aborts the loop (`none`).
On success it returns the indices of the slides that got a segment. -/
def buildSegmentsLoop (env : SynthEnv) : List SlideRec → Nat → Option (List Nat)
  | [], _ => some []
  | rec :: rest, i =>
    if rec.imagePath = "" ∨ env.fs rec.imagePath = false then
      buildSegmentsLoop env rest (i + 1)
    else
      let dur := clipDuration rec.audioDuration env.defaultSlideDuration
      if env.createSeg i dur (segmentAudioArg env.fs rec) then
        match buildSegmentsLoop env rest (i + 1) with
        | some l => some (i :: l)
        | none => none
      else none

/-- Audio paths selected for ASR (video_synthesizer.py line 679):
records with a truthy audio path and audio duration strictly above
0.01. -/
def asrAudioPaths (data : List SlideRec) : List String :=
  data.filterMap fun d =>
    match d.audioPath with
    | some p => if p ≠ "" ∧ d.audioDuration > 1/100 then some p else none
    | none => none

/-- Main control flow of `synthesize_video_for_task`
(video_synthesizer.py lines 570-770): empty input fails; the segment
loop aborts the job on its first failure; zero built segments fail;
concatenation failure fails; then subtitles are generated when there
are usable audio clips, and the final video is either the subtitled
one, or — when the SRT is invalid or embedding fails — the un-subtitled
concatenated video moved into place, which still counts as success. -/
def synthesize_video_for_task (env : SynthEnv) (data : List SlideRec) :
    SynthOutcome :=
  if data.isEmpty then
    { success := false, delivered := none
      statuses := ["Error: No data to synthesize"] }
  else
    match buildSegmentsLoop env data 0 with
    | none =>
      { success := false, delivered := none
        statuses := ["Error creating segment for slide"] }
    | some segs =>
      if segs.isEmpty then
        { success := false, delivered := none
          statuses := ["Error: No segments created"] }
      else if env.concatOk = false then
        { success := false, delivered := none
          statuses := ["Error: FFmpeg concat failed"] }
      else
        let asrPaths := asrAudioPaths data
        let subtitlesGenerated :=
          if asrPaths.isEmpty then false else env.subtitlesGenerated
        let skipStatus : List String :=
          if asrPaths.isEmpty then ["Skipping ASR (no audio)"] else []
        if subtitlesGenerated = true ∧ env.srtOnDisk = true ∧ env.srtSize > 5 then
          if env.addSubtitlesOk then
            { success := true, delivered := some FinalVideo.withSubtitles
              statuses := skipStatus ++ ["Subtitles added successfully"] }
          else if env.moveBaseOk then
            { success := true, delivered := some FinalVideo.withoutSubtitles
              statuses := skipStatus ++
                ["Warning: Subtitles failed, saved video without subtitles"] }
          else
            { success := false, delivered := none
              statuses := skipStatus ++ ["Error: Failed to move base video"] }
        else
          if env.baseVideoOnDisk then
            if env.moveBaseOk then
              { success := true, delivered := some FinalVideo.withoutSubtitles
                statuses := skipStatus ++ ["Saved video without subtitles"] }
            else
              { success := false, delivered := none
                statuses := skipStatus ++ ["Error: Failed to move base video"] }
          else
            { success := false, delivered := none
              statuses := skipStatus ++ ["Fatal Error: Base video not found"] }

/-- Final Celery task state (tasks.py lines 169-212): a true return
value from `synthesize_video_for_task` leads to the `Complete` success
state; a false one raises and the task ends in `FAILURE`. -/
def jobFinalState (synthesisSuccess : Bool) : String :=
  if synthesisSuccess then "Complete" else "FAILURE"

/-- Voice catalog `KNOWN_EDGE_VOICES` of core_logic/tts_manager_edge.py
(the voice ids; the display metadata is irrelevant to the control
flow). -/
def KNOWN_EDGE_VOICES : List String :=
  ["zh-CN-XiaoxiaoNeural", "zh-CN-YunxiNeural", "zh-CN-YunjianNeural",
   "zh-CN-XiaoyiNeural", "zh-CN-liaoning-XiaobeiNeural",
   "zh-CN-shaanxi-XiaoniNeural",
   "en-US-JennyNeural", "en-US-GuyNeural", "en-US-AriaNeural",
   "en-US-DavisNeural", "en-US-SaraNeural", "en-US-ChristopherNeural",
   "en-GB-LibbyNeural", "en-GB-RyanNeural", "en-GB-SoniaNeural",
   "en-AU-NatashaNeural", "en-AU-WilliamNeural"]

/-- Python `not text or text.isspace()`: true for the empty string and
for nonempty all-whitespace strings. -/
def isBlank (text : String) : Bool :=
  text.toList.all Char.isWhitespace

/-- Outcome of one synthesis attempt inside `generate_audio_segment`:
either `_synthesize_edge_audio_async` returned False (possibly leaving
a partial file of some size at the output path), or it returned True
having written a file of the given size. -/
inductive SynthAttempt
  | engineError (leftover : Option Nat)
  | engineOk (size : Nat)
deriving DecidableEq

/-- An attempt succeeds when the engine reported success and the
written file exists with size strictly above 100 bytes
(tts_manager_edge.py line 217). -/
def attemptSucceeds : SynthAttempt → Bool
  | .engineError _ => false
  | .engineOk size => decide (size > 100)

/-- File left at the output path right after an attempt: an engine
error leaves whatever partial output there was; an undersized
engine-reported success is deleted (line 225); a valid file stays. -/
def fileAfter : SynthAttempt → Option Nat
  | .engineError leftover => leftover
  | .engineOk size => if size > 100 then some size else none

/-- Observable result of `generate_audio_segment`: return value, number
of synthesis attempts performed, the delays slept between consecutive
attempts, and the file (size) left at the output path. -/
structure TTSRun where
  success : Bool
  attempts : Nat
  sleeps : List ℚ
  file : Option Nat
deriving DecidableEq

/-- Retry loop of `generate_audio_segment` (tts_manager_edge.py lines
198-244): `for attempt in range(max_retries + 1)`, sleeping
`retry_delay` between failed attempts, returning success immediately on
a valid file and deleting any residual file after the last failed
attempt.  `remaining` counts the retries still allowed
(`max_retries - attempt`). -/
def ttsLoop (outcomes : Nat → SynthAttempt) (retryDelay : ℚ)
    (attempt remaining : Nat) (sleeps : List ℚ) : TTSRun :=
  let o := outcomes attempt
  if attemptSucceeds o then
    { success := true, attempts := attempt + 1, sleeps := sleeps
      file := fileAfter o }
  else
    match remaining with
    | 0 =>
      { success := false, attempts := attempt + 1, sleeps := sleeps
        file := none }
    | r + 1 =>
      ttsLoop outcomes retryDelay (attempt + 1) r (sleeps ++ [retryDelay])

/-- `generate_audio_segment` (tts_manager_edge.py lines 152-249):
unknown voice ids and blank text fail immediately with no attempt;
otherwise the retry loop runs with `max_retries + 1` total attempts. -/
def generate_audio_segment (voiceId text : String)
    (outcomes : Nat → SynthAttempt) (maxRetries : Nat) (retryDelay : ℚ) :
    TTSRun :=
  if voiceId ∈ KNOWN_EDGE_VOICES then
    if isBlank text then
      { success := false, attempts := 0, sleeps := [], file := none }
    else
      ttsLoop outcomes retryDelay 0 maxRetries []
  else
    { success := false, attempts := 0, sleeps := [], file := none }

/-- Raw value of a JSON `duration` field as seen by `float(...)`:
absent, present but unparsable, or a parsed rational. -/
inductive RawField
  | absent
  | malformed
  | value (q : ℚ)
deriving DecidableEq

/-- One stream entry of the ffprobe JSON output. -/
structure ProbeStream where
  codecType : String
  duration : RawField
deriving DecidableEq

/-- The `format` section of the ffprobe JSON output (collapsing
"no format section" and "format without duration" into `absent`). -/
structure ProbeFormat where
  duration : RawField
deriving DecidableEq

/-- Everything that can happen when `get_audio_duration` shells out to
ffprobe (core_logic/utils.py lines 95-185). -/
inductive ProbeOutcome
  | fileMissing
  | toolMissing
  | nonzeroExit
  | timeoutExpired
  | malformedJson
  | ok (format : ProbeFormat) (streams : List ProbeStream)

/-- Parse of the format-level duration (utils.py lines 144-149): a
parsable value is used, a missing or malformed one leaves `duration`
as None. -/
def formatDuration : RawField → Option ℚ
  | .value q => some q
  | _ => none

/-- Stream fallback loop (utils.py lines 152-160): the first stream
with `codec_type == "audio"` and a parsable `duration` field wins;
audio streams with a missing or unparsable duration are passed over
and the loop continues. -/
def streamDuration : List ProbeStream → Option ℚ
  | [] => none
  | s :: rest =>
    if s.codecType = "audio" then
      match s.duration with
      | .value q => some q
      | _ => streamDuration rest
    else streamDuration rest

/-- Combined duration extraction (utils.py lines 141-160): the
format-level duration is preferred; the stream loop is consulted only
when the format-level field is absent or unparsable. -/
def probedDuration (format : ProbeFormat) (streams : List ProbeStream) :
    Option ℚ :=
  match formatDuration format.duration with
  | some q => some q
  | none => streamDuration streams

/-- `get_audio_duration` (utils.py lines 95-185): all error paths
(missing file, missing ffprobe, nonzero exit, timeout, malformed JSON)
return None; otherwise the format-level duration is preferred, the
stream duration is the fallback, and any duration below 0.01 is
reported as None, never as a number. -/
def get_audio_duration : ProbeOutcome → Option ℚ
  | .ok format streams =>
    match probedDuration format streams with
    | some q => if q ≥ 1/100 then some q else none
    | none => none
  | _ => none

/-- Per-note body of `generate_audio_segments` (ppt_processor.py lines
130-177): blank notes and failed synthesis yield `(None, 0.0)`;
after a successful synthesis the probed duration is kept only when
strictly above 0.01, the path being recorded in every
successful-synthesis branch. -/
def audioSegmentResult (note : String) (ttsSuccess : Bool)
    (probe : Option ℚ) (pathStr : String) : Option String × ℚ :=
  if isBlank note then (none, 0)
  else if ttsSuccess then
    match probe with
    | some raw => if raw > 1/100 then (some pathStr, raw) else (some pathStr, 0)
    | none => (some pathStr, 0)
  else (none, 0)

/-- `generate_audio_segments` (ppt_processor.py lines 97-181), the
`for i, text in enumerate(notes)` loop with the TTS result and the
probe result for the i-th note supplied as oracles; `i` is the running
enumeration index. -/
def generate_audio_segments (ttsSuccess : Nat → Bool)
    (probe : Nat → Option ℚ) (pathOf : Nat → String) :
    Nat → List String → List (Option String × ℚ)
  | _, [] => []
  | i, note :: rest =>
    audioSegmentResult note (ttsSuccess i) (probe i) (pathOf i) ::
      generate_audio_segments ttsSuccess probe pathOf (i + 1) rest

/-- The optional audio clip handed to `create_video_segment`: `none`
models a None `audio_path`; otherwise the file's existence and size. -/
structure AudioClipInfo where
  onDisk : Bool
  size : Nat
deriving DecidableEq

/-- Oracle environment for `create_video_segment`: tool resolution,
image existence, and the results of the two ffmpeg invocations and of
the rename/move. -/
structure SegEnv where
  ffmpegFound : Bool
  imageIsFile : Bool
  step1Ok : Bool
  muxOk : Bool
  moveOk : Bool
deriving DecidableEq

/-- What ended up at the segment output path. -/
inductive SegOutput
  | muxedAV
  | silentMoved
deriving DecidableEq

/-- Result of `create_video_segment`: return value, number of ffmpeg
invocations, and the produced output (if any). -/
structure SegResult where
  success : Bool
  ffmpegCalls : Nat
  output : Option SegOutput
deriving DecidableEq

/-- `audio_is_valid` check of video_synthesizer.py line 337: non-null
path, existing file, size strictly above 100 bytes. -/
def usableAudio : Option AudioClipInfo → Bool
  | some a => a.onDisk && decide (a.size > 100)
  | none => false

/-- `create_video_segment` (video_synthesizer.py lines 272-384):
missing ffmpeg, missing image or a target duration ≤ 0 are rejected
before any ffmpeg call; then the silent looped-image video is encoded;
with usable audio a second ffmpeg call muxes them (failure deletes
partial output); without usable audio the silent video is moved into
place as the final segment. -/
def create_video_segment (env : SegEnv) (duration : ℚ)
    (audio : Option AudioClipInfo) : SegResult :=
  if env.ffmpegFound = false then
    { success := false, ffmpegCalls := 0, output := none }
  else if env.imageIsFile = false then
    { success := false, ffmpegCalls := 0, output := none }
  else if duration ≤ 0 then
    { success := false, ffmpegCalls := 0, output := none }
  else if env.step1Ok = false then
    { success := false, ffmpegCalls := 1, output := none }
  else if usableAudio audio then
    if env.muxOk then
      { success := true, ffmpegCalls := 2, output := some SegOutput.muxedAV }
    else
      { success := false, ffmpegCalls := 2, output := none }
  else
    if env.moveOk then
      { success := true, ffmpegCalls := 1, output := some SegOutput.silentMoved }
    else
      { success := false, ffmpegCalls := 1, output := none }

/-- One listed segment file for the concatenator: its path and whether
it still exists on disk. -/
structure VideoFile where
  path : String
  onDisk : Bool
deriving DecidableEq

/-- Oracle environment for `concatenate_videos`. -/
structure ConcatEnv where
  ffmpegFound : Bool
  ffmpegConcatOk : Bool
deriving DecidableEq

/-- Result of `concatenate_videos`: return value, the playlist entries
written, the missing files skipped with a warning, and whether the
temporary playlist file remains on disk after returning. -/
structure ConcatResult where
  success : Bool
  playlistEntries : List String
  warnings : List String
  playlistFileRemains : Bool
deriving DecidableEq

/-- `concatenate_videos` (video_synthesizer.py lines 387-458): empty
input and missing ffmpeg fail before the playlist file is created;
missing segment files are skipped with a warning; an empty effective
playlist is deleted and fails; the `finally` block removes the playlist
file on every remaining path, success and failure alike. -/
def concatenate_videos (env : ConcatEnv) (files : List VideoFile) :
    ConcatResult :=
  if files.isEmpty then
    { success := false, playlistEntries := [], warnings := []
      playlistFileRemains := false }
  else if env.ffmpegFound = false then
    { success := false, playlistEntries := [], warnings := []
      playlistFileRemains := false }
  else
    let entries := (files.filter fun f => f.onDisk).map fun f => f.path
    let warns := (files.filter fun f => !f.onDisk).map fun f => f.path
    if entries.isEmpty then
      { success := false, playlistEntries := entries, warnings := warns
        playlistFileRemains := false }
    else if env.ffmpegConcatOk then
      { success := true, playlistEntries := entries, warnings := warns
        playlistFileRemains := false }
    else
      { success := false, playlistEntries := entries, warnings := warns
        playlistFileRemains := false }

/-- Result-assembly loop of `process_presentation_for_task`, step 5
(ppt_processor.py lines 316-334), over the zipped aligned lists:
a slide whose image file no longer exists is skipped with a warning;
the others become slide records with a 1-based slide number. -/
def assembleLoop (fs : String → Bool) :
    Nat → List (String × String × (Option String × ℚ)) → List SlideRec
  | _, [] => []
  | i, (img, note, audioPath, duration) :: rest =>
    if fs img then
      { slideNumber := i + 1, imagePath := img, notes := note
        audioPath := audioPath, audioDuration := duration } ::
        assembleLoop fs (i + 1) rest
    else assembleLoop fs (i + 1) rest

/-- `process_presentation_for_task` step 5 (ppt_processor.py lines
310-337): assemble the final slide records from the aligned image,
note, and audio-result lists, failing (`raise ValueError`) when no
record survives. -/
def assembleFinalData (fs : String → Bool) (imagePaths notesList : List String)
    (audioResults : List (Option String × ℚ)) : Option (List SlideRec) :=
  let finalData := assembleLoop fs 0 (imagePaths.zip (notesList.zip audioResults))
  if finalData.isEmpty then none else some finalData

/-- Sample slide record with an existing image and usable audio, used
to instantiate theorems at concrete inputs. -/
def sampleSlide : SlideRec :=
  { slideNumber := 1, imagePath := "slide_1.png", notes := "hello"
    audioPath := some "segment_1.mp3", audioDuration := 2 }

/-- Sample slide record whose image file has vanished from disk under
`skipFs`. -/
def goneSlide : SlideRec :=
  { slideNumber := 2, imagePath := "gone.png", notes := "world"
    audioPath := none, audioDuration := 0 }

/-- Sample filesystem on which every file except `gone.png` exists. -/
def skipFs : String → Bool := fun p => p != "gone.png"

/-- Sample environment whose segment builder always fails. -/
def segFailEnv : SynthEnv :=
  { fs := fun _ => true, createSeg := fun _ _ _ => false, concatOk := true
    subtitlesGenerated := false, srtOnDisk := false, srtSize := 0
    addSubtitlesOk := false, moveBaseOk := true, baseVideoOnDisk := true
    defaultSlideDuration := 3 }

/-- Sample environment where everything succeeds except the subtitle
embedding step. -/
def embedFailEnv : SynthEnv :=
  { fs := fun _ => true, createSeg := fun _ _ _ => true, concatOk := true
    subtitlesGenerated := true, srtOnDisk := true, srtSize := 100
    addSubtitlesOk := false, moveBaseOk := true, baseVideoOnDisk := true
    defaultSlideDuration := 3 }

/-- Sample environment where `gone.png` is missing, the segment builder
and the remaining stages succeed, and ASR produces nothing. -/
def skipEnv : SynthEnv :=
  { fs := skipFs, createSeg := fun _ _ _ => true, concatOk := true
    subtitlesGenerated := false, srtOnDisk := false, srtSize := 0
    addSubtitlesOk := false, moveBaseOk := true, baseVideoOnDisk := true
    defaultSlideDuration := 3 }

/-- C1: after slide rendering and notes extraction both succeed, if the
rendered-image count differs from the note count the orchestrator
truncates both lists to exactly min(count_images, count_notes) and
proceeds with that many slides; if that minimum is 0 (and likewise if
both lists are empty) the job fails instead of proceeding. -/
theorem alignment_truncation_policy (imgs notes : List String) :
    (imgs.length ≠ notes.length →
      (min imgs.length notes.length = 0 → alignSlides imgs notes = none) ∧
      (min imgs.length notes.length ≠ 0 →
        alignSlides imgs notes =
          some (imgs.take (min imgs.length notes.length),
                notes.take (min imgs.length notes.length)) ∧
        (imgs.take (min imgs.length notes.length)).length =
          min imgs.length notes.length ∧
        (notes.take (min imgs.length notes.length)).length =
          min imgs.length notes.length)) ∧
    (imgs = [] → notes = [] → alignSlides imgs notes = none) := by
  constructor
  · intro hne
    constructor
    · intro hmin
      simp [alignSlides, hne, hmin]
    · intro hmin
      refine ⟨?_, ?_, ?_⟩
      · simp [alignSlides, hne, hmin]
      · simp only [List.length_take]
        omega
      · simp only [List.length_take]
        omega
  · rintro rfl rfl
    simp [alignSlides]

/-- Witness for C1: three rendered images against one note truncate to
one slide; two empty lists fail. -/
theorem alignment_truncation_policy_witness :
    alignSlides ["a", "b"] ["n"] = some (["a"], ["n"]) ∧
    alignSlides ([] : List String) ([] : List String) = none := by
  constructor
  · have h :=
      ((alignment_truncation_policy ["a", "b"] ["n"]).1 (by decide)).2 (by decide)
    simpa using h.1
  · exact (alignment_truncation_policy [] []).2 rfl rfl

/-- C2 counterexample: a slide record whose audio duration is exactly
0.01 s is at the claimed "≥ 0.01 s" usability threshold, yet the code's
strict `> 0.01` test builds the segment with the configured default
duration (3.0 s fallback), not with the 0.01 s audio duration. -/
theorem clip_duration_boundary_counterexample :
    (1/100 : ℚ) ≥ 1/100 ∧ clipDuration (1/100) 3 = 3 ∧ (3 : ℚ) ≠ 1/100 := by
  refine ⟨le_refl _, ?_, by norm_num⟩
  simp [clipDuration]

/-- C2 amended: the duration used to build a slide's video segment
equals the slide's audio duration exactly when that duration is
strictly greater than 0.01 s, and equals the configured default slide
duration (fallback 3.0 s) whenever the audio duration is at most
0.01 s, including the 0.0 no-audio sentinel. -/
theorem clip_duration_policy (d defaultDur : ℚ) :
    (d > 1/100 → clipDuration d defaultDur = d) ∧
    (d ≤ 1/100 → clipDuration d defaultDur = defaultDur) := by
  constructor
  · intro h
    rw [clipDuration, if_pos h]
  · intro h
    rw [clipDuration, if_neg (not_lt.mpr h)]

/-- Witness for C2 amended at durations 2.0 and 0.0 with default 3.0. -/
theorem clip_duration_policy_witness :
    clipDuration 2 3 = 2 ∧ clipDuration 0 3 = 3 :=
  ⟨(clip_duration_policy 2 3).1 (by norm_num),
   (clip_duration_policy 0 3).2 (by norm_num)⟩

/-- Helper: under an always-failing synthesizer the retry loop performs
one attempt per unit of remaining budget plus the current one, sleeping
the fixed delay between consecutive attempts, and ends in failure with
no residual file. -/
theorem ttsLoop_all_fail (outcomes : Nat → SynthAttempt) (retryDelay : ℚ)
    (hfail : ∀ n, attemptSucceeds (outcomes n) = false) :
    ∀ remaining attempt sleeps,
      ttsLoop outcomes retryDelay attempt remaining sleeps =
        { success := false, attempts := attempt + remaining + 1,
          sleeps := sleeps ++ List.replicate remaining retryDelay,
          file := none } := by
  intro remaining
  induction remaining with
  | zero =>
    intro attempt sleeps
    rw [ttsLoop]
    simp [hfail]
  | succ r ih =>
    intro attempt sleeps
    rw [ttsLoop]
    simp only [hfail, Bool.false_eq_true, if_false]
    rw [ih]
    simp only [TTSRun.mk.injEq, List.replicate_succ, List.append_assoc,
      List.singleton_append, and_true, true_and]
    omega

/-- C3: with a synthesizer that fails on every attempt (engine error or
undersized output), `generate_audio_segment` performs exactly
max_retries + 1 attempts, sleeps the fixed delay between consecutive
attempts, returns failure, and leaves no residual file at the output
path. -/
theorem tts_retry_exhaustion (voiceId text : String)
    (outcomes : Nat → SynthAttempt) (maxRetries : Nat) (retryDelay : ℚ)
    (hvoice : voiceId ∈ KNOWN_EDGE_VOICES) (htext : isBlank text = false)
    (hfail : ∀ n, attemptSucceeds (outcomes n) = false) :
    generate_audio_segment voiceId text outcomes maxRetries retryDelay =
      { success := false, attempts := maxRetries + 1,
        sleeps := List.replicate maxRetries retryDelay, file := none } := by
  rw [generate_audio_segment, if_pos hvoice, if_neg (by simp [htext])]
  rw [ttsLoop_all_fail outcomes retryDelay hfail]
  simp

/-- Witness for C3: a known voice, nonblank text and an engine that
always errors, with max_retries = 2. -/
theorem tts_retry_exhaustion_witness :
    generate_audio_segment "en-US-JennyNeural" "hello"
        (fun _ => SynthAttempt.engineError none) 2 (3/2) =
      { success := false, attempts := 3,
        sleeps := List.replicate 2 (3/2), file := none } :=
  tts_retry_exhaustion "en-US-JennyNeural" "hello"
    (fun _ => SynthAttempt.engineError none) 2 (3/2)
    (by decide) (by decide) (fun _ => rfl)

/-- C4: a create_video_segment failure on any single slide is fatal for
the whole job: the segment-building loop aborts at the first failure
regardless of the remaining slides, and the video-synthesis function
returns failure, delivering no (partial) video. -/
theorem segment_failure_is_fatal (env : SynthEnv) :
    (∀ data, buildSegmentsLoop env data 0 = none →
      synthesize_video_for_task env data =
        { success := false, delivered := none
          statuses := ["Error creating segment for slide"] }) ∧
    (∀ (rec : SlideRec) (rest : List SlideRec) (i : Nat),
      rec.imagePath ≠ "" → env.fs rec.imagePath = true →
      env.createSeg i (clipDuration rec.audioDuration env.defaultSlideDuration)
        (segmentAudioArg env.fs rec) = false →
      buildSegmentsLoop env (rec :: rest) i = none) := by
  constructor
  · intro data h
    cases data with
    | nil => simp [buildSegmentsLoop] at h
    | cons a l => simp [synthesize_video_for_task, h]
  · intro rec rest i h1 h2 h3
    rw [buildSegmentsLoop]
    rw [if_neg (by simp [h1, h2])]
    simp [h3]

/-- Witness for C4: one slide with an existing image whose segment
build fails aborts the loop and fails the synthesis. -/
theorem segment_failure_is_fatal_witness :
    buildSegmentsLoop segFailEnv [sampleSlide] 0 = none ∧
    synthesize_video_for_task segFailEnv [sampleSlide] =
      { success := false, delivered := none
        statuses := ["Error creating segment for slide"] } := by
  have hb := (segment_failure_is_fatal segFailEnv).2 sampleSlide [] 0
    (by decide) rfl rfl
  exact ⟨hb, (segment_failure_is_fatal segFailEnv).1 [sampleSlide] hb⟩

/-- C5: when transcription succeeded (a valid SRT file was produced)
but subtitle embedding fails, the job still succeeds: the un-subtitled
concatenated video is moved to the final output path, the synthesis
function returns success — so the task ends in its Complete success
state — and a subtitle-related warning appears in the status texts. -/
theorem embedding_failure_degraded_success (env : SynthEnv)
    (data : List SlideRec) (segs : List Nat)
    (hloop : buildSegmentsLoop env data 0 = some segs)
    (hsegs : segs ≠ [])
    (hconcat : env.concatOk = true)
    (hasr : asrAudioPaths data ≠ [])
    (hgen : env.subtitlesGenerated = true)
    (hsrt : env.srtOnDisk = true)
    (hsize : env.srtSize > 5)
    (hadd : env.addSubtitlesOk = false)
    (hmove : env.moveBaseOk = true) :
    (synthesize_video_for_task env data).success = true ∧
    (synthesize_video_for_task env data).delivered =
      some FinalVideo.withoutSubtitles ∧
    "Warning: Subtitles failed, saved video without subtitles" ∈
      (synthesize_video_for_task env data).statuses ∧
    jobFinalState (synthesize_video_for_task env data).success =
      "Complete" := by
  have hdata : data.isEmpty = false := by
    cases data with
    | nil => simp [asrAudioPaths] at hasr
    | cons a l => rfl
  have hasr' : (asrAudioPaths data).isEmpty = false := by
    cases hA : asrAudioPaths data with
    | nil => exact absurd hA hasr
    | cons _ _ => rfl
  have hsegs' : segs.isEmpty = false := by
    cases segs with
    | nil => exact absurd rfl hsegs
    | cons _ _ => rfl
  have h : synthesize_video_for_task env data =
      { success := true, delivered := some FinalVideo.withoutSubtitles
        statuses :=
          ["Warning: Subtitles failed, saved video without subtitles"] } := by
    rw [synthesize_video_for_task]
    rw [if_neg (by simp [hdata])]
    rw [hloop]
    simp [hsegs', hconcat, hasr', hgen, hsrt, hsize, hadd, hmove]
  rw [h]
  simp [jobFinalState]

/-- Witness for C5: a one-slide job where every stage succeeds except
subtitle embedding. -/
theorem embedding_failure_degraded_success_witness :
    (synthesize_video_for_task embedFailEnv [sampleSlide]).success = true ∧
    (synthesize_video_for_task embedFailEnv [sampleSlide]).delivered =
      some FinalVideo.withoutSubtitles ∧
    "Warning: Subtitles failed, saved video without subtitles" ∈
      (synthesize_video_for_task embedFailEnv [sampleSlide]).statuses ∧
    jobFinalState (synthesize_video_for_task embedFailEnv [sampleSlide]).success =
      "Complete" :=
  embedding_failure_degraded_success embedFailEnv [sampleSlide] [0]
    (by decide) (by decide) rfl
    (by norm_num [asrAudioPaths, sampleSlide]; exact ⟨by decide, by decide⟩)
    rfl rfl (by decide) rfl rfl

/-- Helper: the stream fallback loop ignores a leading block of
non-audio streams. -/
theorem streamDuration_append_no_audio (pre : List ProbeStream)
    (hpre : ∀ t ∈ pre, t.codecType ≠ "audio") (l : List ProbeStream) :
    streamDuration (pre ++ l) = streamDuration l := by
  induction pre with
  | nil => rfl
  | cons t pre' ih =>
    have ht : t.codecType ≠ "audio" := hpre t (List.mem_cons_self t pre')
    rw [List.cons_append, streamDuration]
    rw [if_neg ht]
    exact ih fun u hu => hpre u (List.mem_cons_of_mem t hu)

/-- C6: the audio prober is total and returns Unknown (None) on timeout
and on malformed probe output; it reads the duration preferentially
from the container's format-level field (ignoring the streams), falling
back to the first audio stream's duration field when the format-level
one is absent or unparsable; and every probed duration below 0.01 s —
and any returned value — is reported as None rather than a number below
the threshold. -/
theorem audio_prober_policy :
    (get_audio_duration ProbeOutcome.timeoutExpired = none ∧
     get_audio_duration ProbeOutcome.malformedJson = none) ∧
    (∀ (f : ProbeFormat) (streams : List ProbeStream) (q : ℚ),
      f.duration = RawField.value q →
      get_audio_duration (ProbeOutcome.ok f streams) =
        if q ≥ 1/100 then some q else none) ∧
    (∀ (f : ProbeFormat) (pre rest : List ProbeStream) (s : ProbeStream)
      (q : ℚ),
      formatDuration f.duration = none →
      (∀ t ∈ pre, t.codecType ≠ "audio") →
      s.codecType = "audio" → s.duration = RawField.value q →
      get_audio_duration (ProbeOutcome.ok f (pre ++ s :: rest)) =
        if q ≥ 1/100 then some q else none) ∧
    (∀ (o : ProbeOutcome) (d : ℚ), get_audio_duration o = some d →
      d ≥ 1/100) := by
  refine ⟨⟨rfl, rfl⟩, ?_, ?_, ?_⟩
  · intro f streams q hf
    simp [get_audio_duration, probedDuration, formatDuration, hf]
  · intro f pre rest s q hf hpre hs hd
    rw [get_audio_duration, probedDuration, hf,
      streamDuration_append_no_audio pre hpre, streamDuration, if_pos hs, hd]
  · intro o d h
    cases o with
    | ok f streams =>
      rw [get_audio_duration] at h
      cases hq : probedDuration f streams with
      | none => rw [hq] at h; exact absurd h (by simp)
      | some q =>
        rw [hq] at h
        have h' : (if q ≥ 1/100 then some q else (none : Option ℚ)) =
            some d := h
        by_cases hge : q ≥ 1/100
        · rw [if_pos hge] at h'
          cases h'
          exact hge
        · rw [if_neg hge] at h'
          exact absurd h' (by simp)
    | fileMissing => exact absurd h (by simp [get_audio_duration])
    | toolMissing => exact absurd h (by simp [get_audio_duration])
    | nonzeroExit => exact absurd h (by simp [get_audio_duration])
    | timeoutExpired => exact absurd h (by simp [get_audio_duration])
    | malformedJson => exact absurd h (by simp [get_audio_duration])

/-- Witness for C6: a format-level duration of 2.5 s is returned as is
(streams ignored), and with the format-level field absent, a first
audio stream of 0.005 s — below the threshold — yields None, after a
leading non-audio stream. -/
theorem audio_prober_policy_witness :
    get_audio_duration
        (ProbeOutcome.ok ⟨RawField.value (5/2)⟩ [⟨"audio", RawField.value 7⟩]) =
      some (5/2) ∧
    get_audio_duration
        (ProbeOutcome.ok ⟨RawField.absent⟩
          ([⟨"video", RawField.absent⟩] ++
            (⟨"audio", RawField.value (1/200)⟩ : ProbeStream) :: [])) =
      none := by
  constructor
  · have h := audio_prober_policy.2.1 ⟨RawField.value (5/2)⟩
      [⟨"audio", RawField.value 7⟩] (5/2) rfl
    rw [h, if_pos (by norm_num)]
  · have h := audio_prober_policy.2.2.1 ⟨RawField.absent⟩
      [⟨"video", RawField.absent⟩] [] ⟨"audio", RawField.value (1/200)⟩ (1/200)
      rfl (by decide) rfl rfl
    rw [h, if_neg (by norm_num)]

/-- C7: create_video_segment rejects any target duration ≤ 0 without
invoking ffmpeg or producing a segment; and when no usable audio clip
is supplied (audio absent, file missing, or trivially small) while the
silent-video encode succeeds, the silent looped-image video is
renamed/moved into place as the final segment after a single ffmpeg
invocation — no second encode. -/
theorem segment_builder_rejects_and_moves (env : SegEnv) (duration : ℚ)
    (audio : Option AudioClipInfo) :
    (duration ≤ 0 →
      create_video_segment env duration audio =
        { success := false, ffmpegCalls := 0, output := none }) ∧
    (env.ffmpegFound = true → env.imageIsFile = true → 0 < duration →
      env.step1Ok = true → usableAudio audio = false → env.moveOk = true →
      create_video_segment env duration audio =
        { success := true, ffmpegCalls := 1,
          output := some SegOutput.silentMoved }) := by
  constructor
  · intro hd
    cases hf : env.ffmpegFound
    · simp [create_video_segment, hf]
    · cases hi : env.imageIsFile
      · simp [create_video_segment, hf, hi]
      · simp [create_video_segment, hf, hi, hd]
  · intro h1 h2 h3 h4 h5 h6
    have hd : ¬ duration ≤ 0 := not_le.mpr h3
    simp [create_video_segment, h1, h2, hd, h4, h5, h6]

/-- Witness for C7: a −1 s target is rejected with no ffmpeg call, and
with no audio clip a 2 s segment is the moved silent video after one
ffmpeg call. -/
theorem segment_builder_rejects_and_moves_witness :
    create_video_segment ⟨true, true, true, true, true⟩ (-1) none =
      { success := false, ffmpegCalls := 0, output := none } ∧
    create_video_segment ⟨true, true, true, true, true⟩ 2 none =
      { success := true, ffmpegCalls := 1,
        output := some SegOutput.silentMoved } :=
  ⟨(segment_builder_rejects_and_moves ⟨true, true, true, true, true⟩ (-1)
      none).1 (by norm_num),
   (segment_builder_rejects_and_moves ⟨true, true, true, true, true⟩ 2
      none).2 rfl rfl (by norm_num) rfl rfl rfl⟩

/-- C8: the concatenator skips (recording a warning for) every listed
segment file that no longer exists on disk while keeping the others as
playlist entries; it fails when the effective playlist is empty; and
the temporary playlist file is gone by the time it returns, on success
and on every failure path alike. -/
theorem concatenator_policy (env : ConcatEnv) (files : List VideoFile) :
    (files ≠ [] → env.ffmpegFound = true →
      (concatenate_videos env files).warnings =
        ((files.filter fun f => !f.onDisk).map fun f => f.path) ∧
      (concatenate_videos env files).playlistEntries =
        ((files.filter fun f => f.onDisk).map fun f => f.path)) ∧
    (files ≠ [] → env.ffmpegFound = true →
      (files.filter fun f => f.onDisk) = [] →
      (concatenate_videos env files).success = false) ∧
    (concatenate_videos env files).playlistFileRemains = false ∧
    ((concatenate_videos env files).success = true →
      (concatenate_videos env files).playlistEntries ≠ []) := by
  have hALL : (concatenate_videos env files).playlistFileRemains = false := by
    simp only [concatenate_videos]
    repeat' split
    all_goals rfl
  refine ⟨?_, ?_, hALL, ?_⟩
  · intro hne hffmpeg
    have hempty : files.isEmpty = false := by
      cases files with
      | nil => exact absurd rfl hne
      | cons _ _ => rfl
    rw [concatenate_videos, if_neg (by simp [hempty]),
      if_neg (by simp [hffmpeg])]
    split <;> simp
    split <;> simp
  · intro hne hffmpeg hfilter
    have hempty : files.isEmpty = false := by
      cases files with
      | nil => exact absurd rfl hne
      | cons _ _ => rfl
    rw [concatenate_videos, if_neg (by simp [hempty]),
      if_neg (by simp [hffmpeg])]
    rw [if_pos (by simp [hfilter])]
  · intro hs
    intro hentries
    rw [concatenate_videos] at hs hentries
    by_cases h0 : files.isEmpty
    · rw [if_pos h0] at hs
      exact absurd hs (by simp)
    · rw [if_neg h0] at hs hentries
      by_cases h1 : env.ffmpegFound = false
      · rw [if_pos h1] at hs
        exact absurd hs (by simp)
      · rw [if_neg h1] at hs hentries
        by_cases h2 : ((files.filter fun f => f.onDisk).map
            fun f => f.path).isEmpty
        · rw [if_pos h2] at hs
          exact absurd hs (by simp)
        · rw [if_neg h2] at hs hentries
          by_cases h3 : env.ffmpegConcatOk
          · rw [if_pos h3] at hentries
            simp only at hentries
            rw [hentries] at h2
            exact h2 rfl
          · rw [if_neg h3] at hs
            exact absurd hs (by simp)

/-- Witness for C8: one existing and one vanished segment produce a
one-entry playlist with one warning; a list whose only segment vanished
fails. -/
theorem concatenator_policy_witness :
    (concatenate_videos ⟨true, true⟩
        [⟨"seg1.mp4", true⟩, ⟨"seg2.mp4", false⟩]).warnings = ["seg2.mp4"] ∧
    (concatenate_videos ⟨true, true⟩
        [⟨"seg1.mp4", true⟩, ⟨"seg2.mp4", false⟩]).playlistEntries =
      ["seg1.mp4"] ∧
    (concatenate_videos ⟨true, true⟩ [⟨"seg3.mp4", false⟩]).success = false ∧
    (concatenate_videos ⟨true, true⟩
        [⟨"seg1.mp4", true⟩, ⟨"seg2.mp4", false⟩]).playlistFileRemains =
      false := by
  have h1 := (concatenator_policy ⟨true, true⟩
    [⟨"seg1.mp4", true⟩, ⟨"seg2.mp4", false⟩]).1 (by decide) rfl
  have h2 := (concatenator_policy ⟨true, true⟩
    [⟨"seg3.mp4", false⟩]).2.1 (by decide) rfl (by decide)
  have h3 := (concatenator_policy ⟨true, true⟩
    [⟨"seg1.mp4", true⟩, ⟨"seg2.mp4", false⟩]).2.2.1
  exact ⟨by simpa using h1.1, by simpa using h1.2, h2, h3⟩

/-- C9 counterexample: a nonblank note, a successful synthesis and a
probed duration of exactly 0.01 s — a value the prober itself reports
as valid, sitting at the claimed "at or above 0.01 s" usability
threshold — still produce a record carrying the 0.0 sentinel (and the
audio path), so the duration field is not 0.0 "exactly when there is no
usable audio". -/
theorem audio_record_boundary_counterexample :
    get_audio_duration (ProbeOutcome.ok ⟨RawField.value (1/100)⟩ []) =
      some (1/100) ∧
    (1/100 : ℚ) ≥ 1/100 ∧
    audioSegmentResult "hello" true (some (1/100)) "segment_1.mp3" =
      (some "segment_1.mp3", 0) := by
  refine ⟨?_, le_refl _, ?_⟩
  · rw [get_audio_duration]
    simp [probedDuration, formatDuration]
  · unfold audioSegmentResult
    rw [if_neg (by decide)]
    rw [if_pos rfl]
    simp

/-- C9 amended: in every record produced by the audio-generation phase
(each list entry is the per-note body applied at its enumeration
index), the audio clip path is absent when the note was
empty/whitespace or synthesis failed — and present exactly when
synthesis ran and succeeded — and the audio duration field is the 0.0
sentinel exactly when the probe did not return a value strictly greater
than 0.01 s; otherwise it equals the probed value, which is strictly
above that threshold. -/
theorem audio_record_invariant (ttsSuccess : Nat → Bool)
    (probe : Nat → Option ℚ) (pathOf : Nat → String) :
    (∀ (i : Nat) (notes : List String) (r : Option String × ℚ),
      r ∈ generate_audio_segments ttsSuccess probe pathOf i notes →
      ∃ j note, r = audioSegmentResult note (ttsSuccess j) (probe j)
        (pathOf j)) ∧
    (∀ (note : String) (tts : Bool) (pr : Option ℚ) (path : String),
      (isBlank note = true ∨ tts = false →
        audioSegmentResult note tts pr path = (none, 0)) ∧
      (isBlank note = false → tts = true →
        (audioSegmentResult note tts pr path).1 = some path ∧
        ((audioSegmentResult note tts pr path).2 = 0 ↔
          ∀ d, pr = some d → d ≤ 1/100) ∧
        (∀ d, pr = some d → d > 1/100 →
          audioSegmentResult note tts pr path = (some path, d)))) := by
  constructor
  · intro i notes
    induction notes generalizing i with
    | nil => intro r hr; simp [generate_audio_segments] at hr
    | cons note rest ih =>
      intro r hr
      rw [generate_audio_segments] at hr
      rcases List.mem_cons.mp hr with h | h
      · exact ⟨i, note, h⟩
      · exact ih (i + 1) r h
  · intro note tts pr path
    constructor
    · rintro (hb | ht)
      · unfold audioSegmentResult
        rw [if_pos hb]
      · unfold audioSegmentResult
        cases hB : isBlank note with
        | true => simp
        | false =>
          rw [if_neg (by simp [hB]), ht]
          simp
    · intro hb ht
      subst ht
      unfold audioSegmentResult
      rw [if_neg (by simp [hb]), if_pos rfl]
      refine ⟨?_, ?_, ?_⟩
      · cases pr with
        | none => rfl
        | some raw =>
          show (if raw > 1/100 then (some path, raw) else (some path, 0)).1 =
            some path
          split <;> rfl
      · cases pr with
        | none => simp
        | some raw =>
          show (if raw > 1/100 then (some path, raw) else (some path, 0)).2 =
              0 ↔ ∀ d, some raw = some d → d ≤ 1/100
          by_cases hgt : raw > 1/100
          · rw [if_pos hgt]
            constructor
            · intro h0 d hd
              cases hd
              have h0' : raw = 0 := h0
              rw [h0'] at hgt
              exact absurd hgt (by norm_num)
            · intro hall
              exact absurd hgt (not_lt.mpr (hall raw rfl))
          · rw [if_neg hgt]
            constructor
            · intro _ d hd
              cases hd
              exact not_lt.mp hgt
            · intro _
              rfl
      · intro d hd hgt
        cases hd
        show (if d > 1/100 then (some path, d) else (some path, 0)) =
          (some path, d)
        rw [if_pos hgt]

/-- Witness for C9 amended: a whitespace-only note yields no path and
the sentinel; a successful 2 s clip is recorded verbatim. -/
theorem audio_record_invariant_witness :
    audioSegmentResult " " true (some 5) "p.mp3" = (none, 0) ∧
    audioSegmentResult "hi" true (some 2) "p.mp3" = (some "p.mp3", 2) := by
  have h1 := ((audio_record_invariant (fun _ => true) (fun _ => some 5)
    (fun _ => "p.mp3")).2 " " true (some 5) "p.mp3").1 (Or.inl (by decide))
  have h2 := (((audio_record_invariant (fun _ => true) (fun _ => some 2)
    (fun _ => "p.mp3")).2 "hi" true (some 2) "p.mp3").2 (by decide) rfl).2.2
    2 rfl (by norm_num)
  exact ⟨h1, h2⟩

/-- Helper: the assembly loop produces one record per zipped slide
whose image file exists. -/
theorem assembleLoop_length (fs : String → Bool) :
    ∀ (l : List (String × String × (Option String × ℚ))) (i : Nat),
      (assembleLoop fs i l).length = l.countP fun t => fs t.1 := by
  intro l
  induction l with
  | nil => intro i; rfl
  | cons t rest ih =>
    intro i
    obtain ⟨img, note, ap, dur⟩ := t
    rw [assembleLoop]
    cases h : fs img
    · simp [List.countP_cons, h, ih]
    · simp [List.countP_cons, h, ih (i + 1)]

/-- Helper: every record kept by the assembly loop has an existing
image file. -/
theorem assembleLoop_mem (fs : String → Bool) :
    ∀ (l : List (String × String × (Option String × ℚ))) (i : Nat)
      (r : SlideRec), r ∈ assembleLoop fs i l → fs r.imagePath = true := by
  intro l
  induction l with
  | nil => intro i r hr; simp [assembleLoop] at hr
  | cons t rest ih =>
    intro i r hr
    obtain ⟨img, note, ap, dur⟩ := t
    rw [assembleLoop] at hr
    cases h : fs img
    · rw [if_neg (by simp [h])] at hr
      exact ih (i + 1) r hr
    · rw [if_pos h] at hr
      rcases List.mem_cons.mp hr with h' | h'
      · rw [h']
        exact h
      · exact ih (i + 1) r h'

/-- Helper: counting on the first components of a zip equals counting
on the first list when the second is at least as long. -/
theorem countP_zip_fst {β : Type} (fs : String → Bool) :
    ∀ (imgs : List String) (rest : List β), imgs.length ≤ rest.length →
      ((imgs.zip rest).countP fun t => fs t.1) = imgs.countP fs := by
  intro imgs
  induction imgs with
  | nil => intro rest _; rfl
  | cons a l ih =>
    intro rest h
    cases rest with
    | nil => simp at h
    | cons b r =>
      rw [List.zip_cons_cons]
      have hlen : l.length ≤ r.length := by
        simp at h
        omega
      simp [List.countP_cons, ih r hlen]

/-- C10: a slide whose image file no longer exists at result-assembly
or segment-building time is skipped (with a warning) rather than
failing the job: the assembly keeps exactly the slides whose images
still exist (failing only when none survives), a missing-image record
leaves the segment loop's result unchanged, and the skipping makes the
job fail only when zero slides or zero segments remain — with at least
one segment and the later stages succeeding, the job succeeds. -/
theorem missing_image_skip_policy :
    (∀ (env : SynthEnv) (rec : SlideRec) (rest : List SlideRec) (i : Nat),
      rec.imagePath = "" ∨ env.fs rec.imagePath = false →
      buildSegmentsLoop env (rec :: rest) i =
        buildSegmentsLoop env rest (i + 1)) ∧
    (∀ (fs : String → Bool) (imgs notesList : List String)
      (audios : List (Option String × ℚ)),
      imgs.length = notesList.length → notesList.length = audios.length →
      (assembleFinalData fs imgs notesList audios = none ↔
        imgs.countP fs = 0) ∧
      (∀ l, assembleFinalData fs imgs notesList audios = some l →
        l.length = imgs.countP fs ∧ ∀ r ∈ l, fs r.imagePath = true)) ∧
    (∀ (env : SynthEnv) (data : List SlideRec),
      buildSegmentsLoop env data 0 = some [] →
      (synthesize_video_for_task env data).success = false ∧
      (synthesize_video_for_task env data).delivered = none) ∧
    (∀ (env : SynthEnv) (data : List SlideRec) (segs : List Nat),
      buildSegmentsLoop env data 0 = some segs → segs ≠ [] →
      env.concatOk = true → env.subtitlesGenerated = false →
      env.baseVideoOnDisk = true → env.moveBaseOk = true →
      (synthesize_video_for_task env data).success = true) := by
  refine ⟨?_, ?_, ?_, ?_⟩
  · intro env rec rest i h
    rw [buildSegmentsLoop, if_pos h]
  · intro fs imgs notesList audios h1 h2
    have hiff : ∀ (l : List SlideRec), l.isEmpty = true ↔ l.length = 0 := by
      intro l
      cases l <;> simp
    have key : (assembleLoop fs 0 (imgs.zip (notesList.zip audios))).length =
        imgs.countP fs := by
      rw [assembleLoop_length]
      refine countP_zip_fst fs imgs (notesList.zip audios) ?_
      rw [List.length_zip]
      omega
    constructor
    · constructor
      · intro h
        simp only [assembleFinalData] at h
        by_cases hE :
            (assembleLoop fs 0 (imgs.zip (notesList.zip audios))).isEmpty = true
        · rw [← key]
          exact (hiff _).mp hE
        · rw [if_neg hE] at h
          exact absurd h (by simp)
      · intro h
        simp only [assembleFinalData]
        rw [if_pos ((hiff _).mpr (key.trans h))]
    · intro l hl
      simp only [assembleFinalData] at hl
      by_cases hE :
          (assembleLoop fs 0 (imgs.zip (notesList.zip audios))).isEmpty = true
      · rw [if_pos hE] at hl
        exact absurd hl (by simp)
      · rw [if_neg hE] at hl
        have hEq := Option.some.inj hl
        subst hEq
        exact ⟨key, fun r hr => assembleLoop_mem fs _ 0 r hr⟩
  · intro env data h0
    cases data with
    | nil => constructor <;> simp [synthesize_video_for_task]
    | cons a l => constructor <;> simp [synthesize_video_for_task, h0]
  · intro env data segs hloop hsegs hconcat hgen hbase hmove
    have hdata : data.isEmpty = false := by
      cases data with
      | nil =>
        rw [buildSegmentsLoop] at hloop
        exact absurd (Option.some.inj hloop).symm hsegs
      | cons _ _ => rfl
    have hsegs' : segs.isEmpty = false := by
      cases segs with
      | nil => exact absurd rfl hsegs
      | cons _ _ => rfl
    simp [synthesize_video_for_task, hdata, hloop, hsegs', hconcat, hgen,
      hbase, hmove]

/-- Witness for C10: with `gone.png` missing, the two-slide loop equals
the loop on the surviving slide; a one-slide assembly whose only image
vanished fails; and the two-slide job with one surviving slide
succeeds. -/
theorem missing_image_skip_policy_witness :
    buildSegmentsLoop skipEnv [goneSlide, sampleSlide] 0 =
      buildSegmentsLoop skipEnv [sampleSlide] 1 ∧
    assembleFinalData skipFs ["gone.png"] ["w"] [(none, 0)] = none ∧
    (synthesize_video_for_task skipEnv [goneSlide, sampleSlide]).success =
      true := by
  refine ⟨?_, ?_, ?_⟩
  · exact missing_image_skip_policy.1 skipEnv goneSlide [sampleSlide] 0
      (Or.inr (by decide))
  · exact ((missing_image_skip_policy.2.1 skipFs ["gone.png"] ["w"]
      [(none, 0)] rfl rfl).1).mpr (by decide)
  · exact missing_image_skip_policy.2.2.2 skipEnv [goneSlide, sampleSlide]
      [1] (by decide) (by decide) rfl rfl rfl rfl

end Ppt2Video
